import Mathlib

set_option maxRecDepth 100000

/-! # Verification of the QUIC per-connection endpoint

Shallow embedding of `src/iocore/net/QUICNetVConnection.cc` (Apache Traffic
Server QUIC connection) and proofs about its lifecycle state machine, receive
pipeline, closing backoff, packetizer and flow-control accounting.

External collaborators (frame dispatcher internals, packet codec, loss
detector, congestion controller, stream manager, TLS handshake engine) are
represented by their interface results, exactly as the connection code
observes them; everything the connection code itself computes is translated
from the source. -/

/-! ## Constants (QUICNetVConnection.cc lines 60-74) -/

def MAX_PACKET_OVERHEAD : Nat := 62

def MAX_STREAM_FRAME_OVERHEAD : Nat := 24

def MINIMUM_INITIAL_PACKET_SIZE : Nat := 1200

def PACKET_PER_EVENT : Nat := 32

def MAX_CONSECUTIVE_STREAMS : Nat := 8

def MAX_PACKETS_WITHOUT_SRC_ADDR_VARIDATION : Nat := 3

def STATE_CLOSING_MAX_SEND_PKT_NUM : Nat := 8

def STATE_CLOSING_MAX_RECV_PKT_WIND : Nat := 1 <<< STATE_CLOSING_MAX_SEND_PKT_NUM

def IPV4_HEADER_SIZE : Nat := 20

def IPV6_HEADER_SIZE : Nat := 40

def UDP_HEADER_SIZE : Nat := 8

/-! ## Basic types -/

/-- Packet types handled by the connection (QUICTypes). -/
inductive QUICPacketType
  | VERSION_NEGOTIATION
  | INITIAL
  | RETRY
  | HANDSHAKE
  | ZERO_RTT_PROTECTED
  | PROTECTED
deriving DecidableEq, Repr

/-- Transport error codes used by this file of the source. -/
inductive QUICTransErrorCode
  | NO_ERROR
  | INTERNAL_ERROR
  | FLOW_CONTROL_ERROR
  | PROTOCOL_VIOLATION
  | TRANSPORT_PARAMETER_ERROR
  | VERSION_NEGOTIATION_ERROR
deriving DecidableEq, Repr

inductive QUICErrorClass
  | TRANSPORT
  | APPLICATION
deriving DecidableEq, Repr

/-- Connection error: class plus 16-bit code (QUICConnectionError). -/
structure QUICConnectionError where
  cls : QUICErrorClass
  code : Nat
deriving DecidableEq, Repr

/-- Direction of the NetVConnection: NET_VCONNECTION_IN is the server side,
NET_VCONNECTION_OUT the client side. -/
inductive NetVConnectionContext
  | NET_VCONNECTION_IN
  | NET_VCONNECTION_OUT
deriving DecidableEq, Repr

/-- The connection's event handler, i.e. its lifecycle state (installed with
SET_HANDLER in the source). -/
inductive Handler
  | state_pre_handshake
  | state_handshake
  | state_connection_established
  | state_connection_closing
  | state_connection_draining
  | state_connection_closed
deriving DecidableEq, Repr

/-- Result of dequeuing the packet receive queue (QUICPacketCreationResult). -/
inductive QUICPacketCreationResult
  | NO_PACKET
  | NOT_READY
  | FAILED
  | IGNORED
  | UNSUPPORTED
  | SUCCESS
deriving DecidableEq, Repr

/-- Encryption levels in the fixed packetization ordering QUIC_ENCRYPTION_LEVELS:
Initial, 0-RTT, Handshake, 1-RTT. -/
inductive QUICEncryptionLevel
  | INITIAL
  | ZERO_RTT
  | HANDSHAKE
  | ONE_RTT
deriving DecidableEq, Repr

/-- QUICTypeUtil::packet_type: the packet type built for each encryption
level. -/
def QUICTypeUtil.packet_type : QUICEncryptionLevel → QUICPacketType
  | QUICEncryptionLevel.INITIAL => QUICPacketType.INITIAL
  | QUICEncryptionLevel.ZERO_RTT => QUICPacketType.ZERO_RTT_PROTECTED
  | QUICEncryptionLevel.HANDSHAKE => QUICPacketType.HANDSHAKE
  | QUICEncryptionLevel.ONE_RTT => QUICPacketType.PROTECTED

/-! ## Connection-level flow controller -/

/-- Modelled from the spec: the connection-level flow controller
(QUICFlowController, whose source is not under src/). Per the spec's
flow-control counters, `update` moves `current_offset` forward and reports a
nonzero result exactly when the offset exceeds the current limit;
`forward_limit` and `set_limit` move the limit. -/
structure QUICFlowController where
  current_offset : Nat
  current_limit : Nat
deriving DecidableEq, Repr

/-- Modelled from the spec: "if updated offset exceeds limit →
FLOW_CONTROL_ERROR". Returns the new controller and the `int` result of the
source call (0 on success). -/
def QUICFlowController.update (fc : QUICFlowController) (offset : Nat) :
    QUICFlowController × Int :=
  if fc.current_limit < offset then (fc, 1)
  else ({ fc with current_offset := offset }, 0)

/-- Modelled from the spec: advance the limit. -/
def QUICFlowController.forward_limit (fc : QUICFlowController) (limit : Nat) :
    QUICFlowController :=
  { fc with current_limit := limit }

/-- Modelled from the spec: set the limit (used from
_init_flow_control_params). -/
def QUICFlowController.set_limit (fc : QUICFlowController) (limit : Nat) :
    QUICFlowController :=
  { fc with current_limit := limit }

/-! ## Frame dispatch and _recv_and_ack (lines 1386-1425) -/

/-- Result triple of QUICFrameDispatcher::receive_frames as observed by the
connection, per the frame-dispatcher contract
receive_frames(level, payload, len) → (should_send_ack, is_flow_controlled,
error?). The dispatcher source is external to this file. -/
structure DispatchResult where
  error : Option QUICTransErrorCode
  should_send_ack : Bool
  is_flow_controlled : Bool
deriving DecidableEq, Repr

/-- View of the stream manager counters read by _recv_and_ack. -/
structure StreamManagerView where
  total_offset_received : Nat
  total_reordered_bytes : Nat
deriving DecidableEq, Repr

/-- Outcome of _recv_and_ack: the returned connection error, the argument pair
passed to _ack_frame_creator.update (packet number, should_send_ack) if that
call was reached, and the local flow controller afterwards. -/
structure RecvAndAckResult where
  error : Option QUICTransErrorCode
  ack_update : Option (Nat × Bool)
  fc : QUICFlowController
deriving DecidableEq, Repr

/-- QUICNetVConnection::_recv_and_ack (lines 1386-1425). Dispatches the
packet's frames; forces should_send_ack to false for RETRY packets; if any
frame consumed stream bytes, updates the local connection flow controller
with the stream manager's total received offset, returning
FLOW_CONTROL_ERROR when the update fails and otherwise forwarding the local
limit to total_reordered_bytes + _flow_control_buffer_size; finally updates
the ack frame creator with (packet_number, should_send_ack). -/
def _recv_and_ack (ptype : QUICPacketType) (packet_num : Nat)
    (disp : DispatchResult) (sm : StreamManagerView)
    (flow_control_buffer_size : Nat) (fc : QUICFlowController) :
    RecvAndAckResult :=
  match disp.error with
  | some e => { error := some e, ack_update := none, fc := fc }
  | none =>
    let should_send_ack :=
      if ptype = QUICPacketType.RETRY then false else disp.should_send_ack
    if disp.is_flow_controlled then
      let r := fc.update sm.total_offset_received
      if r.2 ≠ 0 then
        { error := some QUICTransErrorCode.FLOW_CONTROL_ERROR,
          ack_update := none, fc := r.1 }
      else
        { error := none,
          ack_update := some (packet_num, should_send_ack),
          fc := r.1.forward_limit
            (sm.total_reordered_bytes + flow_control_buffer_size) }
    else
      { error := none, ack_update := some (packet_num, should_send_ack),
        fc := fc }

/-! ## Connection state and lifecycle (close, _switch_to_closing_state,
_complete_handshake_if_possible; lines 438-447, 1647-1668, 1752-1778) -/

/-- View of the TLS handshake engine as read by the connection:
`present` models the null check on _handshake_handler, the other fields the
engine's query results. `local_tp` / `remote_tp` carry the
INITIAL_MAX_DATA transport parameter when the respective parameters object
is non-null. -/
structure HandshakeView where
  present : Bool
  is_completed : Bool
  has_remote_tp : Bool
  local_tp : Option Nat
  remote_tp : Option Nat
deriving DecidableEq, Repr

/-- The connection fields touched by close / the state switches. Timer and
queue bookkeeping is represented by booleans ("scheduled"/"armed"); the
subsidiary components appear through the fields the source mutates. -/
structure VC where
  handler : Handler
  netvc_context : NetVConnectionContext
  hs : HandshakeView
  connection_error : Option QUICConnectionError
  packet_write_ready : Bool
  closing_timeout_scheduled : Bool
  closed_event_scheduled : Bool
  in_active_queue : Bool
  inactivity_timeout_enabled : Bool
  application_started : Bool
  stream_fc_initialized : Bool
  local_flow_controller : QUICFlowController
  remote_flow_controller : QUICFlowController
  flow_control_buffer_size : Nat
deriving DecidableEq, Repr

/-- QUICNetVConnection::_schedule_packet_write_ready (lines 1563-1575):
arms the WRITE_READY event if not already armed. -/
def VC._schedule_packet_write_ready (vc : VC) : VC :=
  { vc with packet_write_ready := true }

/-- QUICNetVConnection::_schedule_closing_timeout (lines 1595-1602). -/
def VC._schedule_closing_timeout (vc : VC) : VC :=
  { vc with closing_timeout_scheduled := true }

/-- QUICNetVConnection::_schedule_closed_event (lines 1621-1628). -/
def VC._schedule_closed_event (vc : VC) : VC :=
  { vc with closed_event_scheduled := true }

/-- QUICNetVConnection::_start_application (lines 1696-1721): sets the
_application_started flag and notifies the application endpoint. The
endpoint lookup and its missing-endpoint error path (which reports
VERSION_NEGOTIATION_ERROR) live in external continuation machinery and do
not change the fields modelled here beyond the flag. -/
def VC._start_application (vc : VC) : VC :=
  if vc.application_started then vc
  else { vc with application_started := true }

/-- QUICNetVConnection::_init_flow_control_params (lines 1474-1496):
initializes the stream manager's flow-control parameters, records the local
INITIAL_MAX_DATA as _flow_control_buffer_size when local parameters are
present, and sets both connection flow-controller limits (0 when the
respective parameters object is null). -/
def VC._init_flow_control_params (vc : VC) (local_tp remote_tp : Option Nat) :
    VC :=
  let local_initial_max_data := match local_tp with
    | some v => v
    | none => 0
  let remote_initial_max_data := match remote_tp with
    | some v => v
    | none => 0
  let vc := { vc with stream_fc_initialized := true }
  let vc := match local_tp with
    | some v => { vc with flow_control_buffer_size := v }
    | none => vc
  { vc with
    local_flow_controller :=
      vc.local_flow_controller.set_limit local_initial_max_data,
    remote_flow_controller :=
      vc.remote_flow_controller.set_limit remote_initial_max_data }

/-- QUICNetVConnection::_complete_handshake_if_possible (lines 1647-1668).
Returns 0 immediately when the handler is not state_handshake; returns -1
when the handshake engine is absent or not completed, or when on the client
side remote transport parameters are missing; otherwise initializes the
flow-control limits from the transport parameters, starts the application
and returns 0. -/
def _complete_handshake_if_possible (vc : VC) : Int × VC :=
  if vc.handler ≠ Handler.state_handshake then
    (0, vc)
  else if ¬(vc.hs.present = true ∧ vc.hs.is_completed = true) then
    (-1, vc)
  else if vc.netvc_context = NetVConnectionContext.NET_VCONNECTION_OUT ∧
      vc.hs.has_remote_tp = false then
    (-1, vc)
  else
    (0, ((vc._init_flow_control_params vc.hs.local_tp
            vc.hs.remote_tp)._start_application))

/-- QUICNetVConnection::_switch_to_closing_state (lines 1752-1778): tries to
complete the handshake, records the connection error, schedules an immediate
write (to flush the CLOSE frame), leaves the active queue, disables the
inactivity timeout, installs state_connection_closing and schedules the
closing timeout (3 × RTO; the timer length is not modelled). -/
def _switch_to_closing_state (vc : VC) (error : QUICConnectionError) : VC :=
  let vc := (_complete_handshake_if_possible vc).2
  let vc := { vc with connection_error := some error }
  let vc := vc._schedule_packet_write_ready
  let vc := { vc with in_active_queue := false,
                      inactivity_timeout_enabled := false }
  let vc := { vc with handler := Handler.state_connection_closing }
  vc._schedule_closing_timeout

/-- QUICNetVConnection::close (lines 438-447): a no-op when the handler is
state_connection_closed or state_connection_closing, otherwise switches to
the closing state with the given error. -/
def VC.close (vc : VC) (error : QUICConnectionError) : VC :=
  if vc.handler = Handler.state_connection_closed ∨
      vc.handler = Handler.state_connection_closing then
    vc
  else
    _switch_to_closing_state vc error

/-! ## Receive-queue items and the draining state (lines 682-710, 1057-1071) -/

/-- Events dispatched to the closing / draining state handlers. -/
inductive QEvent
  | PACKET_READ_READY
  | PACKET_WRITE_READY
  | PATH_VALIDATION_TIMEOUT
  | CLOSING_TIMEOUT
deriving DecidableEq, Repr

/-- One _dequeue_recv_packet outcome: the creation result together with the
packet data and per-packet collaborator results _recv_and_ack will observe
for it. -/
structure DeqItem where
  result : QUICPacketCreationResult
  ptype : QUICPacketType
  packet_num : Nat
  disp : DispatchResult
  sm : StreamManagerView
deriving DecidableEq, Repr

/-- The connection fields the draining handler touches. `sent_packets` counts
datagrams handed to _packet_handler->send_packet, `ack_updates` the calls
made to _ack_frame_creator.update. -/
structure DrainingState where
  handler : Handler
  recv_queue : List DeqItem
  local_flow_controller : QUICFlowController
  flow_control_buffer_size : Nat
  ack_updates : List (Nat × Bool)
  packet_write_ready : Bool
  closing_timeout_scheduled : Bool
  path_validation_timeout_scheduled : Bool
  closed_event_scheduled : Bool
  path_validated : Bool
  sent_packets : Nat
deriving DecidableEq, Repr

/-- Loop body of QUICNetVConnection::_state_draining_receive_packet (lines
1057-1071): dequeue while the queue is non-empty; on SUCCESS call
_recv_and_ack (its returned error is dropped by the source). No WRITE_READY
event is scheduled from this path and nothing is sent. -/
def _state_draining_receive_packet_loop :
    List DeqItem → QUICFlowController → Nat → List (Nat × Bool) →
    QUICFlowController × List (Nat × Bool)
  | [], fc, _, acks => (fc, acks)
  | item :: rest, fc, buf, acks =>
    if item.result = QUICPacketCreationResult.SUCCESS then
      let r := _recv_and_ack item.ptype item.packet_num item.disp item.sm buf fc
      let acks := match r.ack_update with
        | some u => acks ++ [u]
        | none => acks
      _state_draining_receive_packet_loop rest r.fc buf acks
    else
      _state_draining_receive_packet_loop rest fc buf acks

/-- QUICNetVConnection::_state_draining_receive_packet (lines 1057-1071). -/
def _state_draining_receive_packet (s : DrainingState) : DrainingState :=
  let r := _state_draining_receive_packet_loop s.recv_queue
    s.local_flow_controller s.flow_control_buffer_size s.ack_updates
  { s with recv_queue := [], local_flow_controller := r.1, ack_updates := r.2 }

/-- QUICNetVConnection::_switch_to_close_state (lines 1806-1818) restricted to
the draining-state fields: unschedule the closing and path-validation
timeouts, install state_connection_closed and schedule the SHUTDOWN event. -/
def DrainingState._switch_to_close_state (s : DrainingState) : DrainingState :=
  { s with closing_timeout_scheduled := false,
           path_validation_timeout_scheduled := false,
           handler := Handler.state_connection_closed,
           closed_event_scheduled := true }

/-- QUICNetVConnection::state_connection_draining (lines 682-710): READ_READY
runs the draining receive path; WRITE_READY only clears the armed write event
("Do not send any packets in this state"); PATH_VALIDATION_TIMEOUT closes the
connection when the path is not validated; CLOSING_TIMEOUT closes the
connection. -/
def state_connection_draining (s : DrainingState) (event : QEvent) :
    DrainingState :=
  match event with
  | QEvent.PACKET_READ_READY => _state_draining_receive_packet s
  | QEvent.PACKET_WRITE_READY => { s with packet_write_ready := false }
  | QEvent.PATH_VALIDATION_TIMEOUT =>
    let s := { s with path_validation_timeout_scheduled := false }
    if s.path_validated then s else s._switch_to_close_state
  | QEvent.CLOSING_TIMEOUT =>
    let s := { s with closing_timeout_scheduled := false }
    s._switch_to_close_state

/-- A run of events against the draining handler: each event is handled by
state_connection_draining while the handler is state_connection_draining;
once the handler has switched away (to state_connection_closed), later events
are dispatched to the new handler and are outside this model. -/
def drainingRun (s : DrainingState) : List QEvent → DrainingState
  | [] => s
  | e :: es =>
    if s.handler = Handler.state_connection_draining then
      drainingRun (state_connection_draining s e) es
    else
      s

/-! ## Closing state backoff (lines 1026-1055) -/

/-- The connection fields the closing-state receive path touches:
_state_closing_recv_packet_count, _state_closing_recv_packet_window, the ack
and flow-control bookkeeping shared with _recv_and_ack, and the armed write
event. `sends_scheduled` counts the _schedule_packet_write_ready(true) calls
made by this path (each of which triggers one re-emission of the CLOSE
packet by _state_closing_send_packet). -/
structure ClosingState where
  local_flow_controller : QUICFlowController
  flow_control_buffer_size : Nat
  ack_updates : List (Nat × Bool)
  recv_packet_count : Nat
  recv_packet_window : Nat
  packet_write_ready : Bool
  sends_scheduled : Nat
deriving DecidableEq, Repr

/-- QUICNetVConnection::_state_closing_receive_packet (lines 1026-1055):
dequeue while packets are queued; on SUCCESS, VERSION_NEGOTIATION packets
are ignored and all others go through _recv_and_ack; every dequeued packet
increments _state_closing_recv_packet_count; when the window is still below
STATE_CLOSING_MAX_RECV_PKT_WIND and the count has reached the window, the
count resets, the window doubles, a WRITE_READY event is scheduled and the
loop breaks, returning the still-unprocessed queue. -/
def _state_closing_receive_packet :
    List DeqItem → ClosingState → ClosingState × List DeqItem
  | [], s => (s, [])
  | item :: rest, s =>
    let s :=
      if item.result = QUICPacketCreationResult.SUCCESS ∧
          item.ptype ≠ QUICPacketType.VERSION_NEGOTIATION then
        let r := _recv_and_ack item.ptype item.packet_num item.disp item.sm
          s.flow_control_buffer_size s.local_flow_controller
        { s with local_flow_controller := r.fc,
                 ack_updates := s.ack_updates ++ (match r.ack_update with
                   | some u => [u]
                   | none => []) }
      else s
    let count := s.recv_packet_count + 1
    if s.recv_packet_window < STATE_CLOSING_MAX_RECV_PKT_WIND ∧
        s.recv_packet_window ≤ count then
      ({ s with recv_packet_count := 0,
                recv_packet_window := s.recv_packet_window <<< 1,
                packet_write_ready := true,
                sends_scheduled := s.sends_scheduled + 1 }, rest)
    else
      _state_closing_receive_packet rest { s with recv_packet_count := count }

/-- Modelled from the spec: the initial values of
_state_closing_recv_packet_count and _state_closing_recv_packet_window are
member initializers in QUICNetVConnection.h, which is not under src/. The
spec's schedule — first send after 1 in-window packet, doubling up to the
2^8 window and a hard cap of 8 = STATE_CLOSING_MAX_SEND_PKT_NUM sends —
fixes them to 0 and 1. -/
def initialClosingState (fc : QUICFlowController) (buf : Nat) : ClosingState :=
  { local_flow_controller := fc,
    flow_control_buffer_size := buf,
    ack_updates := [],
    recv_packet_count := 0,
    recv_packet_window := 1,
    packet_write_ready := false,
    sends_scheduled := 0 }

/-- The whole closing period: a sequence of PACKET_READ_READY events, each
delivering a batch of newly arrived queue items which the closing receive
path processes after the items left unprocessed by the previous break. -/
def closingPeriod :
    List (List DeqItem) → ClosingState × List DeqItem →
    ClosingState × List DeqItem
  | [], p => p
  | arrivals :: rest, (s, pending) =>
    closingPeriod rest (_state_closing_receive_packet (pending ++ arrivals) s)

/-! ## Packet sizing (lines 383-410) -/

/-- QUICNetVConnection::minimum_quic_packet_size (lines 383-394): the client
(NET_VCONNECTION_OUT) always uses MINIMUM_INITIAL_PACKET_SIZE; the server
uses 32 + (rnd & 0x3f) where `rnd` is one draw of the random engine. -/
def minimum_quic_packet_size (ctx : NetVConnectionContext) (rnd : Nat) : Nat :=
  if ctx = NetVConnectionContext.NET_VCONNECTION_OUT then
    MINIMUM_INITIAL_PACKET_SIZE
  else
    32 + (rnd &&& 0x3f)

/-- QUICNetVConnection::maximum_quic_packet_size (lines 396-404). -/
def maximum_quic_packet_size (pmtu : Nat) (is_ipv6 : Bool) : Nat :=
  if is_ipv6 then pmtu - UDP_HEADER_SIZE - IPV6_HEADER_SIZE
  else pmtu - UDP_HEADER_SIZE - IPV4_HEADER_SIZE

/-- QUICNetVConnection::_maximum_stream_frame_data_size (lines 406-410). -/
def _maximum_stream_frame_data_size (pmtu : Nat) (is_ipv6 : Bool) : Nat :=
  maximum_quic_packet_size pmtu is_ipv6 - MAX_STREAM_FRAME_OVERHEAD -
    MAX_PACKET_OVERHEAD

/-! ## Packetizer: _packetize_frames (lines 1218-1355) -/

/-- Frame types distinguished by the packetizer. -/
inductive QUICFrameType
  | STREAM
  | CRYPTO
  | ACK
  | MAX_DATA
  | BLOCKED
  | PATH_CHALLENGE
  | NEW_CONNECTION_ID
  | OTHER
deriving DecidableEq, Repr

/-- A frame as the packetizer observes it: the number of bytes its store()
writes, its is_probing_frame() flag and its type(). -/
structure Frame where
  size : Nat
  probing : Bool
  ftype : QUICFrameType
deriving DecidableEq, Repr

/-- A repeatedly-queried frame producer (generate_frame), indexed by the call
number within one _packetize_frames invocation and the remaining
max_frame_size. Producers honour the budget: a returned frame's store fits
in the given max_frame_size (and is non-empty — the source asserts the
stored length is non-zero in _store_frame, line 1206). -/
def GenOracle : Type := Nat → Nat → Option Frame

/-- Collaborator behaviour for one _packetize_frames call. Each field is one
producer queried by the source, in its priority order. -/
structure PacketizeOracles where
  handshake_gen : GenOracle
  path_validator_gen : Nat → Option Frame
  alt_con_manager_gen : Option GenOracle
  retransmitter_gen : GenOracle
  local_fc_gen : Nat → Option Frame
  remote_fc_credit : Nat
  stream_manager_will_generate : Bool
  remote_fc_gen : Nat → Option Frame
  path_validator_is_validating : Bool
  stream_gen : GenOracle
  ack_will_generate : Bool
  ack_gen : Nat → Option Frame
  rnd : Nat

/-- Drain one producer as the source's while-loops do: query, store, query
again, until the producer declines. The fuel argument only bounds the
recursion; since every stored frame consumes at least one byte of the
budget (ink_assert(l != 0) in _store_frame), a fuel of budget + 1 is never
the binding constraint for contract-honouring producers. Returns the stored
frames and the remaining budget. -/
def drainGen (gen : GenOracle) : Nat → Nat → Nat → List Frame × Nat
  | 0, _, budget => ([], budget)
  | fuel + 1, i, budget =>
    match gen i budget with
    | none => ([], budget)
    | some f =>
      let r := drainGen gen fuel (i + 1) (budget - f.size)
      (f :: r.1, r.2)

/-- The STREAM / MAX_STREAM_DATA / STREAM_BLOCKED loop (lines 1297-1316):
query the stream manager with the remote flow-control credit; after storing
a frame, ++_stream_frames_sent, and when that counter hits a multiple of
MAX_CONSECUTIVE_STREAMS, break to give ACK a chance. The remote
flow-controller update performed for STREAM frames (asserted to succeed,
line 1306) is part of the credit the oracle reports on the next call. -/
def streamLoop (gen : GenOracle) :
    Nat → Nat → Nat → Nat → List Frame × Nat × Nat
  | 0, _, budget, sfs => ([], budget, sfs)
  | fuel + 1, i, budget, sfs =>
    match gen i budget with
    | none => ([], budget, sfs)
    | some f =>
      let sfs := sfs + 1
      let budget := budget - f.size
      if sfs % MAX_CONSECUTIVE_STREAMS = 0 then ([f], budget, sfs)
      else
        let r := streamLoop gen fuel (i + 1) budget sfs
        (f :: r.1, r.2.1, r.2.2)

/-- The packet structure handed to _build_packet: level, payload length
(frames plus any PADDING bytes), retransmittable (= not ack-only) and
probing flags. -/
structure BuiltPacket where
  level : QUICEncryptionLevel
  len : Nat
  retransmittable : Bool
  probing : Bool
deriving DecidableEq, Repr

/-- Result of _packetize_frames: the packet (none both for the early return
and when no frame was produced), the frames stored into it, and the updated
_stream_frames_sent member. -/
structure PacketizeResult where
  packet : Option BuiltPacket
  frames : List Frame
  stream_frames_sent : Nat
deriving Repr

/-- Total bytes the stored frames occupy. -/
def framesLen (fs : List Frame) : Nat := (fs.map Frame.size).foldr (· + ·) 0

/-- Whether any stored frame is probing. -/
def framesProbing (fs : List Frame) : Bool := fs.any Frame.probing

/-- QUICNetVConnection::_packetize_frames (lines 1218-1355). Returns the null
packet when max_packet_size ≤ MAX_PACKET_OVERHEAD; otherwise budgets the
frame area to max_packet_size − MAX_PACKET_OVERHEAD capped by
_maximum_stream_frame_data_size, queries the producers in priority order
(CRYPTO; PATH_CHALLENGE/RESPONSE; NEW_CONNECTION_ID when the alt-CID
manager exists; lost-frame replay; MAX_DATA; BLOCKED when the remote credit
is 0 and the stream manager has data; STREAM gated on the path validator
not validating; ACK), pads client Initial packets to
minimum_quic_packet_size, and builds a packet iff some payload was
produced, retransmittable iff not ack-only. -/
def _packetize_frames (o : PacketizeOracles) (ctx : NetVConnectionContext)
    (pmtu : Nat) (is_ipv6 : Bool) (level : QUICEncryptionLevel)
    (max_packet_size : Nat) (stream_frames_sent : Nat) : PacketizeResult :=
  if max_packet_size ≤ MAX_PACKET_OVERHEAD then
    { packet := none, frames := [], stream_frames_sent := stream_frames_sent }
  else
    let max_frame_size := max_packet_size - MAX_PACKET_OVERHEAD
    let max_frame_size :=
      min max_frame_size (_maximum_stream_frame_data_size pmtu is_ipv6)
    -- CRYPTO
    let crypto := drainGen o.handshake_gen (max_frame_size + 1) 0 max_frame_size
    let frames := crypto.1
    let budget := crypto.2
    -- PATH_CHALLENGE, PATH_RESPONSE (single query)
    let pv := o.path_validator_gen budget
    let frames := frames ++ (match pv with | some f => [f] | none => [])
    let budget := budget - (match pv with | some f => f.size | none => 0)
    -- NEW_CONNECTION_ID (only when _alt_con_manager exists)
    let acm := match o.alt_con_manager_gen with
      | some gen => drainGen gen (budget + 1) 0 budget
      | none => ([], budget)
    let frames := frames ++ acm.1
    let budget := acm.2
    -- Lost frames
    let lost := drainGen o.retransmitter_gen (budget + 1) 0 budget
    let frames := frames ++ lost.1
    let budget := lost.2
    -- MAX_DATA (single query)
    let md := o.local_fc_gen budget
    let frames := frames ++ (match md with | some f => [f] | none => [])
    let budget := budget - (match md with | some f => f.size | none => 0)
    -- BLOCKED (single query, only when credit is 0 and a stream has data)
    let bl :=
      if o.remote_fc_credit = 0 ∧ o.stream_manager_will_generate = true then
        o.remote_fc_gen budget
      else none
    let frames := frames ++ (match bl with | some f => [f] | none => [])
    let budget := budget - (match bl with | some f => f.size | none => 0)
    -- STREAM, MAX_STREAM_DATA, STREAM_BLOCKED
    let st :=
      if o.path_validator_is_validating = false then
        streamLoop o.stream_gen (budget + 1) 0 budget stream_frames_sent
      else ([], budget, stream_frames_sent)
    let frames := frames ++ st.1
    let budget := st.2.1
    let sfs := st.2.2
    -- ACK
    let frame_count := frames.length
    let ack :=
      if frame_count = 0 then
        if o.ack_will_generate = true then o.ack_gen budget else none
      else o.ack_gen budget
    let ack_only := ack.isSome ∧ frame_count = 0
    let frames := frames ++ (match ack with | some f => [f] | none => [])
    -- Schedule a packet
    let len := framesLen frames
    if len ≠ 0 then
      let len :=
        if level = QUICEncryptionLevel.INITIAL ∧
            ctx = NetVConnectionContext.NET_VCONNECTION_OUT then
          let min_size := min (minimum_quic_packet_size ctx o.rnd)
            max_packet_size
          if len < min_size then min_size else len
        else len
      { packet := some { level := level, len := len,
                         retransmittable := ¬ack_only,
                         probing := framesProbing frames },
        frames := frames, stream_frames_sent := sfs }
    else
      { packet := none, frames := frames, stream_frames_sent := sfs }

/-! ## Send pipeline: _state_common_send_packet (lines 1080-1148) -/

/-- Collaborator behaviour for one _state_common_send_packet event: the
congestion controller's open_window per outer iteration, and the producer
oracles for each (iteration, level) _packetize_frames call. The connection
parameters (direction, pmtu, address family, source-address verification)
are frozen for the event. -/
structure SendParams where
  open_window : Nat → Nat
  producers : Nat → QUICEncryptionLevel → PacketizeOracles
  ctx : NetVConnectionContext
  pmtu : Nat
  is_ipv6 : Bool
  src_addr_verified : Bool

/-- Result of the send loop: packets handed to the loss detectors'
on_packet_sent, datagrams handed to _packet_handler->send_packet, and the
final counters. -/
structure SendResult where
  packets_sent : List BuiltPacket
  datagrams : Nat
  handshake_packets_sent : Nat
  stream_frames_sent : Nat
deriving Repr

/-- State threaded through the per-level inner loop (lines 1097-1132). -/
structure LevelLoopState where
  packets : List BuiltPacket
  handshake_packets_sent : Nat
  stream_frames_sent : Nat
  written : Nat
  error : Nat
deriving Repr

/-- The inner for-loop over QUIC_ENCRYPTION_LEVELS (lines 1097-1132): before
each level, the server-side anti-amplification check (source address not
verified and ≥ MAX_PACKETS_WITHOUT_SRC_ADDR_VARIDATION handshake packets
already sent sets error = 1 and stops); then one _packetize_frames call with
the remaining buffer budget; a built packet bumps _handshake_packets_sent on
the server for INITIAL / HANDSHAKE packets, is stored into the UDP payload
(written grows by its length) and is handed to the loss detector of its
packet-number space. -/
def sendLevels (P : SendParams) (iter : Nat) (udp_payload_len : Nat) :
    List QUICEncryptionLevel → LevelLoopState → LevelLoopState
  | [], st => st
  | level :: rest, st =>
    if P.ctx = NetVConnectionContext.NET_VCONNECTION_IN ∧
        P.src_addr_verified = false ∧
        MAX_PACKETS_WITHOUT_SRC_ADDR_VARIDATION ≤ st.handshake_packets_sent
        then
      { st with error := 1 }
    else
      let max_packet_size := udp_payload_len - st.written
      let r := _packetize_frames (P.producers iter level) P.ctx P.pmtu
        P.is_ipv6 level max_packet_size st.stream_frames_sent
      match r.packet with
      | none => sendLevels P iter udp_payload_len rest
          { st with stream_frames_sent := r.stream_frames_sent }
      | some pkt =>
        let hs :=
          if P.ctx = NetVConnectionContext.NET_VCONNECTION_IN ∧
              (QUICTypeUtil.packet_type level = QUICPacketType.INITIAL ∨
               QUICTypeUtil.packet_type level = QUICPacketType.HANDSHAKE) then
            st.handshake_packets_sent + 1
          else st.handshake_packets_sent
        sendLevels P iter udp_payload_len rest
          { packets := st.packets ++ [pkt],
            handshake_packets_sent := hs,
            stream_frames_sent := r.stream_frames_sent,
            written := st.written + pkt.len,
            error := st.error }

/-- The fixed iteration order of QUIC_ENCRYPTION_LEVELS. -/
def QUIC_ENCRYPTION_LEVELS : List QUICEncryptionLevel :=
  [QUICEncryptionLevel.INITIAL, QUICEncryptionLevel.ZERO_RTT,
   QUICEncryptionLevel.HANDSHAKE, QUICEncryptionLevel.ONE_RTT]

/-- The outer while-loop of _state_common_send_packet (lines 1085-1140):
while error == 0 and packet_count < PACKET_PER_EVENT, ask the congestion
controller for a window (stop on 0), build packets for each level into a
payload of min(window, pmtu) bytes, send the datagram when anything was
written and otherwise discard it and stop. The fuel argument only bounds
the recursion: every iteration that continues has written > 0, hence built
at least one packet, so the packet count strictly grows and a fuel of
PACKET_PER_EVENT + 1 is never exhausted (sendLoop_fuel_stable below). -/
def sendLoop (P : SendParams) :
    Nat → Nat → List BuiltPacket → Nat → Nat → Nat → SendResult
  | 0, _, packets, dgrams, hs, sfs =>
    { packets_sent := packets, datagrams := dgrams,
      handshake_packets_sent := hs, stream_frames_sent := sfs }
  | fuel + 1, iter, packets, dgrams, hs, sfs =>
    if packets.length < PACKET_PER_EVENT then
      let window := P.open_window iter
      if window = 0 then
        { packets_sent := packets, datagrams := dgrams,
          handshake_packets_sent := hs, stream_frames_sent := sfs }
      else
        let udp_payload_len := min window P.pmtu
        let r := sendLevels P iter udp_payload_len QUIC_ENCRYPTION_LEVELS
          { packets := packets, handshake_packets_sent := hs,
            stream_frames_sent := sfs, written := 0, error := 0 }
        if r.written = 0 then
          { packets_sent := r.packets, datagrams := dgrams,
            handshake_packets_sent := r.handshake_packets_sent,
            stream_frames_sent := r.stream_frames_sent }
        else if r.error ≠ 0 then
          { packets_sent := r.packets, datagrams := dgrams + 1,
            handshake_packets_sent := r.handshake_packets_sent,
            stream_frames_sent := r.stream_frames_sent }
        else
          sendLoop P fuel (iter + 1) r.packets (dgrams + 1)
            r.handshake_packets_sent r.stream_frames_sent
    else
      { packets_sent := packets, datagrams := dgrams,
        handshake_packets_sent := hs, stream_frames_sent := sfs }

/-- QUICNetVConnection::_state_common_send_packet (lines 1080-1148), entered
with the member counters _handshake_packets_sent and _stream_frames_sent. -/
def _state_common_send_packet (P : SendParams) (hs sfs : Nat) : SendResult :=
  sendLoop P (PACKET_PER_EVENT + 1) 0 [] 0 hs sfs

/-! ## Concrete inputs used by counterexamples and witnesses -/

/-- A connection sitting in the draining state. -/
def drainingVC : VC :=
  { handler := Handler.state_connection_draining,
    netvc_context := NetVConnectionContext.NET_VCONNECTION_IN,
    hs := { present := true, is_completed := true, has_remote_tp := true,
            local_tp := none, remote_tp := none },
    connection_error := none,
    packet_write_ready := false,
    closing_timeout_scheduled := true,
    closed_event_scheduled := false,
    in_active_queue := false,
    inactivity_timeout_enabled := false,
    application_started := true,
    stream_fc_initialized := true,
    local_flow_controller := { current_offset := 0, current_limit := 0 },
    remote_flow_controller := { current_offset := 0, current_limit := 0 },
    flow_control_buffer_size := 0 }

/-- A connection in the established state whose handshake engine does not
report completion. -/
def establishedVC : VC :=
  { handler := Handler.state_connection_established,
    netvc_context := NetVConnectionContext.NET_VCONNECTION_IN,
    hs := { present := true, is_completed := false, has_remote_tp := false,
            local_tp := none, remote_tp := none },
    connection_error := none,
    packet_write_ready := false,
    closing_timeout_scheduled := false,
    closed_event_scheduled := false,
    in_active_queue := true,
    inactivity_timeout_enabled := true,
    application_started := false,
    stream_fc_initialized := false,
    local_flow_controller := { current_offset := 0, current_limit := 0 },
    remote_flow_controller := { current_offset := 0, current_limit := 0 },
    flow_control_buffer_size := 0 }

/-- A server-side connection in the handshake state with a completed
handshake and both transport-parameter objects present. -/
def handshakeVC : VC :=
  { handler := Handler.state_handshake,
    netvc_context := NetVConnectionContext.NET_VCONNECTION_IN,
    hs := { present := true, is_completed := true, has_remote_tp := true,
            local_tp := some 65536, remote_tp := some 32768 },
    connection_error := none,
    packet_write_ready := false,
    closing_timeout_scheduled := false,
    closed_event_scheduled := false,
    in_active_queue := true,
    inactivity_timeout_enabled := true,
    application_started := false,
    stream_fc_initialized := false,
    local_flow_controller := { current_offset := 0, current_limit := 0 },
    remote_flow_controller := { current_offset := 0, current_limit := 0 },
    flow_control_buffer_size := 0 }

/-- Producers that never generate a frame. -/
def trivialOracles : PacketizeOracles :=
  { handshake_gen := fun _ _ => none,
    path_validator_gen := fun _ => none,
    alt_con_manager_gen := none,
    retransmitter_gen := fun _ _ => none,
    local_fc_gen := fun _ => none,
    remote_fc_credit := 1,
    stream_manager_will_generate := false,
    remote_fc_gen := fun _ => none,
    path_validator_is_validating := false,
    stream_gen := fun _ _ => none,
    ack_will_generate := false,
    ack_gen := fun _ => none,
    rnd := 0 }

/-- A one-byte CRYPTO frame. -/
def cxFrame : Frame :=
  { size := 1, probing := false, ftype := QUICFrameType.CRYPTO }

/-- A producer that yields one frame on its first query and then declines. -/
def cxGenOne : GenOracle := fun i _ => if i = 0 then some cxFrame else none

/-- Producers that yield a single one-byte CRYPTO frame per packetize call
when `produce` is set. -/
def cxOracles (produce : Bool) : PacketizeOracles :=
  { trivialOracles with
    handshake_gen := if produce then cxGenOne else fun _ _ => none,
    path_validator_is_validating := true }

/-- A client-side send event in which the handshake engine has CRYPTO data
only at the Initial level for the first 31 datagrams and at all four levels
afterwards, with an unbounded congestion window. -/
def cxParams : SendParams :=
  { open_window := fun _ => 100000,
    producers := fun iter level =>
      cxOracles (decide (31 ≤ iter) ||
        (decide (iter < 31) && decide (level = QUICEncryptionLevel.INITIAL))),
    ctx := NetVConnectionContext.NET_VCONNECTION_OUT,
    pmtu := 5000,
    is_ipv6 := false,
    src_addr_verified := true }

/-- One successfully dequeued PROTECTED packet carrying no error and no
flow-controlled frames. -/
def cItem : DeqItem :=
  { result := QUICPacketCreationResult.SUCCESS,
    ptype := QUICPacketType.PROTECTED,
    packet_num := 7,
    disp := { error := none, should_send_ack := true,
              is_flow_controlled := false },
    sm := { total_offset_received := 0, total_reordered_bytes := 0 } }

/-! ## Theorems -/

/-- C4 counterexample: a RETRY packet whose frames were dispatched without
error but whose flow-control update fails makes _recv_and_ack return
FLOW_CONTROL_ERROR before the ack-frame-creator update, so the creator is
not updated with (packet number, false) as the claim states. -/
theorem C4_counterexample :
    ({ error := none, should_send_ack := true,
       is_flow_controlled := true : DispatchResult }).error = none ∧
    (_recv_and_ack QUICPacketType.RETRY 5
      { error := none, should_send_ack := true, is_flow_controlled := true }
      { total_offset_received := 1, total_reordered_bytes := 0 } 0
      { current_offset := 0, current_limit := 0 }).ack_update ≠
      some (5, false) := by
  decide

/-- C4 (amended): for a RETRY packet dispatched without a frame error, the
ack frame creator is never updated with should_send_ack = true, and whenever
_recv_and_ack itself returns no error it is updated with
(packet number, false): a RETRY packet never elicits an acknowledgement. -/
theorem C4_retry_never_elicits_ack (pn : Nat) (disp : DispatchResult)
    (sm : StreamManagerView) (buf : Nat) (fc : QUICFlowController)
    (h : disp.error = none) :
    (∀ pn' : Nat,
      (_recv_and_ack QUICPacketType.RETRY pn disp sm buf fc).ack_update ≠
        some (pn', true)) ∧
    ((_recv_and_ack QUICPacketType.RETRY pn disp sm buf fc).error = none →
      (_recv_and_ack QUICPacketType.RETRY pn disp sm buf fc).ack_update =
        some (pn, false)) := by
  obtain ⟨de, ssa, ifc⟩ := disp
  cases de with
  | some e => simp at h
  | none =>
    simp only [_recv_and_ack, QUICFlowController.update,
      QUICFlowController.forward_limit]
    split_ifs <;> simp

/-- C5: when the dispatched frames consumed stream bytes, _recv_and_ack
updates the local connection flow controller with the stream manager's total
received offset; if that offset exceeds the current limit the function
returns FLOW_CONTROL_ERROR, and otherwise it succeeds with the local offset
advanced to the received total and the local limit advanced to
total_reordered_bytes + _flow_control_buffer_size. -/
theorem C5_flow_control_update (pt : QUICPacketType) (pn : Nat)
    (disp : DispatchResult) (sm : StreamManagerView) (buf : Nat)
    (fc : QUICFlowController) (he : disp.error = none)
    (hf : disp.is_flow_controlled = true) :
    (fc.current_limit < sm.total_offset_received →
      (_recv_and_ack pt pn disp sm buf fc).error =
        some QUICTransErrorCode.FLOW_CONTROL_ERROR) ∧
    (sm.total_offset_received ≤ fc.current_limit →
      (_recv_and_ack pt pn disp sm buf fc).error = none ∧
      (_recv_and_ack pt pn disp sm buf fc).fc.current_offset =
        sm.total_offset_received ∧
      (_recv_and_ack pt pn disp sm buf fc).fc.current_limit =
        sm.total_reordered_bytes + buf) := by
  obtain ⟨de, ssa, ifc⟩ := disp
  cases de with
  | some e => simp at he
  | none =>
    simp only at hf
    subst hf
    simp only [_recv_and_ack, QUICFlowController.update,
      QUICFlowController.forward_limit]
    constructor
    · intro hlt
      rw [if_pos trivial, if_pos hlt]
      simp
    · intro hle
      rw [if_pos trivial, if_neg (by omega : ¬fc.current_limit <
        sm.total_offset_received)]
      simp

/-- C10: whenever _recv_and_ack returns a non-null connection error (a
frame-dispatch error or a FLOW_CONTROL_ERROR), the ack frame creator is not
updated for that packet. -/
theorem C10_no_ack_update_on_error (pt : QUICPacketType) (pn : Nat)
    (disp : DispatchResult) (sm : StreamManagerView) (buf : Nat)
    (fc : QUICFlowController)
    (h : (_recv_and_ack pt pn disp sm buf fc).error ≠ none) :
    (_recv_and_ack pt pn disp sm buf fc).ack_update = none := by
  obtain ⟨de, ssa, ifc⟩ := disp
  cases de with
  | some e => simp [_recv_and_ack]
  | none =>
    simp only [_recv_and_ack, QUICFlowController.update,
      QUICFlowController.forward_limit] at h ⊢
    split_ifs at h ⊢ <;> simp_all

/-- C4 witness: on the happy path a RETRY packet is recorded with
should_send_ack = false. -/
theorem C4_witness :
    (_recv_and_ack QUICPacketType.RETRY 3
      { error := none, should_send_ack := true, is_flow_controlled := false }
      { total_offset_received := 0, total_reordered_bytes := 0 } 0
      { current_offset := 0, current_limit := 10 }).ack_update =
      some (3, false) := by
  exact (C4_retry_never_elicits_ack 3
    { error := none, should_send_ack := true, is_flow_controlled := false }
    { total_offset_received := 0, total_reordered_bytes := 0 } 0
    { current_offset := 0, current_limit := 10 } rfl).2 (by decide)

/-- C5 witness: a flow-controlled packet within the limit advances the local
limit to total_reordered_bytes + buffer size. -/
theorem C5_witness :
    (_recv_and_ack QUICPacketType.PROTECTED 4
      { error := none, should_send_ack := true, is_flow_controlled := true }
      { total_offset_received := 5, total_reordered_bytes := 5 } 100
      { current_offset := 0, current_limit := 10 }).fc.current_limit =
      105 := by
  exact ((C5_flow_control_update QUICPacketType.PROTECTED 4
    { error := none, should_send_ack := true, is_flow_controlled := true }
    { total_offset_received := 5, total_reordered_bytes := 5 } 100
    { current_offset := 0, current_limit := 10 } rfl rfl).2
    (by decide)).2.2

/-- C10 witness: a frame-dispatch error suppresses the ack update. -/
theorem C10_witness :
    (_recv_and_ack QUICPacketType.PROTECTED 9
      { error := some QUICTransErrorCode.INTERNAL_ERROR,
        should_send_ack := true, is_flow_controlled := false }
      { total_offset_received := 0, total_reordered_bytes := 0 } 0
      { current_offset := 0, current_limit := 10 }).ack_update = none := by
  exact C10_no_ack_update_on_error QUICPacketType.PROTECTED 9
    { error := some QUICTransErrorCode.INTERNAL_ERROR,
      should_send_ack := true, is_flow_controlled := false }
    { total_offset_received := 0, total_reordered_bytes := 0 } 0
    { current_offset := 0, current_limit := 10 } (by decide)

/-- The handshake-completion attempt never changes the installed handler. -/
theorem complete_handshake_handler_eq (vc : VC) :
    (_complete_handshake_if_possible vc).2.handler = vc.handler := by
  unfold _complete_handshake_if_possible VC._start_application
    VC._init_flow_control_params
  split_ifs <;> cases vc.hs.local_tp <;> simp

/-- After _switch_to_closing_state the installed handler is
state_connection_closing. -/
theorem switch_to_closing_handler (vc : VC) (e : QUICConnectionError) :
    (_switch_to_closing_state vc e).handler =
      Handler.state_connection_closing := by
  unfold _switch_to_closing_state VC._schedule_closing_timeout
    VC._schedule_packet_write_ready
  simp

/-- C1 counterexample: calling close on a connection in the draining state is
not a no-op — the source (lines 441-442) only tests for the closed and
closing handlers, so close switches a draining connection back into the
closing state. -/
theorem C1_counterexample :
    drainingVC.close { cls := QUICErrorClass.TRANSPORT, code := 0 } ≠
      drainingVC ∧
    (drainingVC.close { cls := QUICErrorClass.TRANSPORT, code := 0 }).handler
      = Handler.state_connection_closing := by
  decide

/-- Close does nothing when the handler already is closed or closing. -/
theorem close_noop_of_terminal (vc : VC) (e : QUICConnectionError)
    (h : vc.handler = Handler.state_connection_closed ∨
         vc.handler = Handler.state_connection_closing) :
    vc.close e = vc := by
  unfold VC.close
  rw [if_pos h]

/-- C1 (amended): close is a no-op while the connection is in the closing or
closed state (but not in draining, where it re-enters closing), and close is
idempotent from every state: after the first call the handler is closing, so
every subsequent call leaves the connection unchanged. -/
theorem C1_close_noop_and_idempotent (vc : VC)
    (e e' : QUICConnectionError) :
    ((vc.handler = Handler.state_connection_closing ∨
      vc.handler = Handler.state_connection_closed) → vc.close e = vc) ∧
    (vc.close e).close e' = vc.close e := by
  constructor
  · intro h
    exact close_noop_of_terminal vc e (Or.symm h)
  · by_cases h : vc.handler = Handler.state_connection_closed ∨
        vc.handler = Handler.state_connection_closing
    · rw [close_noop_of_terminal vc e h]
      exact close_noop_of_terminal vc e' h
    · have h1 : vc.close e = _switch_to_closing_state vc e := by
        unfold VC.close
        rw [if_neg h]
      have h2 : (vc.close e).handler = Handler.state_connection_closing := by
        rw [h1]
        exact switch_to_closing_handler vc e
      exact close_noop_of_terminal (vc.close e) e' (Or.inr h2)

/-- C1 witness: close in the closing state is a no-op, and a second close is
inert. -/
theorem C1_witness :
    (drainingVC.close { cls := QUICErrorClass.TRANSPORT, code := 3 }).close
      { cls := QUICErrorClass.APPLICATION, code := 4 } =
      drainingVC.close { cls := QUICErrorClass.TRANSPORT, code := 3 } ∧
    (drainingVC.close { cls := QUICErrorClass.TRANSPORT, code := 3 }).close
      { cls := QUICErrorClass.APPLICATION, code := 4 } =
      drainingVC.close { cls := QUICErrorClass.TRANSPORT, code := 3 } := by
  refine ⟨(C1_close_noop_and_idempotent drainingVC
    { cls := QUICErrorClass.TRANSPORT, code := 3 }
    { cls := QUICErrorClass.APPLICATION, code := 4 }).2,
    (C1_close_noop_and_idempotent
      (drainingVC.close { cls := QUICErrorClass.TRANSPORT, code := 3 })
      { cls := QUICErrorClass.APPLICATION, code := 4 }
      { cls := QUICErrorClass.APPLICATION, code := 4 }).1
      (Or.inl (by decide))⟩

/-- C8 counterexample: with the connection already in the established state
and the handshake engine not reporting completion,
_complete_handshake_if_possible still returns success (the source returns 0
for any handler other than state_handshake, lines 1650-1652), refuting the
claimed "only if" direction. -/
theorem C8_counterexample :
    (_complete_handshake_if_possible establishedVC).1 = 0 ∧
    ¬(establishedVC.handler = Handler.state_handshake ∧
      establishedVC.hs.is_completed = true) := by
  decide

/-- Starting the application always leaves the flag set and touches nothing
else. -/
theorem start_application_fields (vc : VC) :
    (vc._start_application).application_started = true ∧
    (vc._start_application).stream_fc_initialized =
      vc.stream_fc_initialized ∧
    (vc._start_application).local_flow_controller =
      vc.local_flow_controller ∧
    (vc._start_application).remote_flow_controller =
      vc.remote_flow_controller := by
  unfold VC._start_application
  split_ifs with h
  · exact ⟨h, rfl, rfl, rfl⟩
  · simp

/-- Field values after _init_flow_control_params. -/
theorem init_flow_control_params_fields (vc : VC)
    (local_tp remote_tp : Option Nat) :
    (vc._init_flow_control_params local_tp
      remote_tp).stream_fc_initialized = true ∧
    (vc._init_flow_control_params local_tp
      remote_tp).local_flow_controller.current_limit =
      (match local_tp with | some v => v | none => 0) ∧
    (vc._init_flow_control_params local_tp
      remote_tp).remote_flow_controller.current_limit =
      (match remote_tp with | some v => v | none => 0) := by
  unfold VC._init_flow_control_params QUICFlowController.set_limit
  cases local_tp <;> cases remote_tp <;> simp

/-- C8 (amended): _complete_handshake_if_possible returns success iff the
connection is not in the handshake state (in which case it does nothing), or
the handshake engine reports completion and, on the client side, remote
transport parameters are present; in the latter case it initializes the
connection and stream flow-control limits from the transport parameters and
starts the application. -/
theorem C8_complete_handshake_iff (vc : VC) :
    ((_complete_handshake_if_possible vc).1 = 0 ↔
      (vc.handler ≠ Handler.state_handshake ∨
        (vc.hs.present = true ∧ vc.hs.is_completed = true ∧
          (vc.netvc_context = NetVConnectionContext.NET_VCONNECTION_OUT →
            vc.hs.has_remote_tp = true)))) ∧
    (vc.handler = Handler.state_handshake →
      (_complete_handshake_if_possible vc).1 = 0 →
      ((_complete_handshake_if_possible vc).2.stream_fc_initialized = true ∧
       (_complete_handshake_if_possible vc).2.application_started = true ∧
       (_complete_handshake_if_possible vc).2.local_flow_controller.current_limit
         = (match vc.hs.local_tp with | some v => v | none => 0) ∧
       (_complete_handshake_if_possible vc).2.remote_flow_controller.current_limit
         = (match vc.hs.remote_tp with | some v => v | none => 0))) := by
  by_cases h1 : vc.handler = Handler.state_handshake
  · by_cases h2 : vc.hs.present = true ∧ vc.hs.is_completed = true
    · by_cases h3 : vc.netvc_context =
          NetVConnectionContext.NET_VCONNECTION_OUT ∧
          vc.hs.has_remote_tp = false
      · have hv : _complete_handshake_if_possible vc = (-1, vc) := by
          unfold _complete_handshake_if_possible
          rw [if_neg (not_not_intro h1), if_neg (not_not_intro h2), if_pos h3]
        rw [hv]
        constructor
        · constructor
          · intro h0
            exact absurd h0 (by norm_num)
          · intro hor
            rcases hor with hne | ⟨_, _, htp⟩
            · exact absurd h1 hne
            · rw [htp h3.1] at h3
              exact absurd h3.2 (by simp)
        · intro _ h0
          exact absurd h0 (by norm_num)
      · have hv : _complete_handshake_if_possible vc =
            (0, ((vc._init_flow_control_params vc.hs.local_tp
              vc.hs.remote_tp)._start_application)) := by
          unfold _complete_handshake_if_possible
          rw [if_neg (not_not_intro h1), if_neg (not_not_intro h2), if_neg h3]
        rw [hv]
        refine ⟨⟨fun _ => ?_, fun _ => rfl⟩, fun _ _ => ?_⟩
        · refine Or.inr ⟨h2.1, h2.2, fun hctx => ?_⟩
          cases htp : vc.hs.has_remote_tp with
          | true => rfl
          | false => exact absurd ⟨hctx, htp⟩ h3
        · obtain ⟨hsf, hl, hr⟩ := init_flow_control_params_fields vc
            vc.hs.local_tp vc.hs.remote_tp
          obtain ⟨ha, hsf2, hl2, hr2⟩ := start_application_fields
            (vc._init_flow_control_params vc.hs.local_tp vc.hs.remote_tp)
          exact ⟨by rw [hsf2, hsf], ha, by rw [hl2, hl], by rw [hr2, hr]⟩
    · have hv : _complete_handshake_if_possible vc = (-1, vc) := by
        unfold _complete_handshake_if_possible
        rw [if_neg (not_not_intro h1), if_pos h2]
      rw [hv]
      constructor
      · constructor
        · intro h0
          exact absurd h0 (by norm_num)
        · intro hor
          rcases hor with hne | ⟨hp, hc, _⟩
          · exact absurd h1 hne
          · exact absurd ⟨hp, hc⟩ h2
      · intro _ h0
        exact absurd h0 (by norm_num)
  · have hv : _complete_handshake_if_possible vc = (0, vc) := by
      unfold _complete_handshake_if_possible
      rw [if_pos h1]
    rw [hv]
    exact ⟨⟨fun _ => Or.inl h1, fun _ => rfl⟩, fun hEq _ => absurd hEq h1⟩

/-- C8 witness: on a server in the handshake state with a completed
handshake, success is returned and the limits come from the transport
parameters. -/
theorem C8_witness :
    (_complete_handshake_if_possible handshakeVC).1 = 0 ∧
    (_complete_handshake_if_possible
      handshakeVC).2.local_flow_controller.current_limit = 65536 ∧
    (_complete_handshake_if_possible
      handshakeVC).2.application_started = true := by
  have h := C8_complete_handshake_iff handshakeVC
  have h0 : (_complete_handshake_if_possible handshakeVC).1 = 0 :=
    h.1.mpr (Or.inr ⟨rfl, rfl, fun hc => absurd hc (by decide)⟩)
  have h2 := h.2 rfl h0
  exact ⟨h0, h2.2.2.1, h2.2.1⟩

/-- Masking with 0x3f is reduction modulo 64. -/
theorem and_63_eq_mod (n : Nat) : n &&& 63 = n % 64 := by
  have h : (63 : Nat) = 2 ^ 6 - 1 := by norm_num
  rw [h, Nat.and_pow_two_sub_one_eq_mod]

/-- C9 counterexample: no draw of the random engine makes the server-side
minimum packet size equal 96 — the claimed upper end of the range is not
attainable, since 32 + (rnd & 0x3f) is at most 32 + 63 = 95. -/
theorem C9_counterexample :
    ¬ ∃ r : Nat, minimum_quic_packet_size
      NetVConnectionContext.NET_VCONNECTION_IN r = 96 := by
  rintro ⟨r, hr⟩
  have h : r &&& 63 ≤ 63 := Nat.and_le_right
  simp only [minimum_quic_packet_size, reduceCtorEq, if_false] at hr
  omega

/-- C9 (amended): on the client the minimum packet size is exactly
MINIMUM_INITIAL_PACKET_SIZE = 1200; on the server it is 32 + (rnd & 0x3f),
which for every random draw lies in the range 32 to 95, with every value in
that range attainable. -/
theorem C9_minimum_packet_size (r v : Nat) (h32 : 32 ≤ v) (h95 : v ≤ 95) :
    minimum_quic_packet_size NetVConnectionContext.NET_VCONNECTION_OUT r =
      MINIMUM_INITIAL_PACKET_SIZE ∧
    32 ≤ minimum_quic_packet_size NetVConnectionContext.NET_VCONNECTION_IN r ∧
    minimum_quic_packet_size NetVConnectionContext.NET_VCONNECTION_IN r ≤ 95 ∧
    minimum_quic_packet_size NetVConnectionContext.NET_VCONNECTION_IN
      (v - 32) = v := by
  have hub : r &&& 63 ≤ 63 := Nat.and_le_right
  have hv : (v - 32) &&& 63 = v - 32 := by
    rw [and_63_eq_mod]
    exact Nat.mod_eq_of_lt (by omega)
  refine ⟨rfl, ?_, ?_, ?_⟩
  · simp only [minimum_quic_packet_size, reduceCtorEq, if_false]
    omega
  · simp only [minimum_quic_packet_size, reduceCtorEq, if_false]
    omega
  · simp only [minimum_quic_packet_size, reduceCtorEq, if_false]
    omega

/-- C9 witness: the top of the server range, 95, is attained at rnd = 63. -/
theorem C9_witness :
    minimum_quic_packet_size NetVConnectionContext.NET_VCONNECTION_IN 63 =
      95 := by
  exact (C9_minimum_packet_size 0 95 (by decide) (by decide)).2.2.2

/-- One draining-state event neither sends a datagram nor arms the
WRITE_READY event. -/
theorem draining_step_no_outbound (s : DrainingState) (e : QEvent) :
    (state_connection_draining s e).sent_packets = s.sent_packets ∧
    ((state_connection_draining s e).packet_write_ready = true →
      s.packet_write_ready = true) := by
  cases e with
  | PACKET_READ_READY =>
    simp [state_connection_draining, _state_draining_receive_packet]
  | PACKET_WRITE_READY =>
    simp [state_connection_draining]
  | PATH_VALIDATION_TIMEOUT =>
    simp only [state_connection_draining]
    split_ifs <;>
      simp [DrainingState._switch_to_close_state]
  | CLOSING_TIMEOUT =>
    simp [state_connection_draining, DrainingState._switch_to_close_state]

/-- C2: while the connection is in the draining state, no outbound packet is
produced or sent for any sequence of PACKET_READ_READY, PACKET_WRITE_READY,
PATH_VALIDATION_TIMEOUT and CLOSING_TIMEOUT events: the draining receive
path leaves the datagram count untouched, and the WRITE_READY event, once
disarmed, is never re-armed by the draining handler. -/
theorem C2_draining_no_outbound (s : DrainingState) (events : List QEvent)
    (hw : s.packet_write_ready = false) :
    (drainingRun s events).sent_packets = s.sent_packets ∧
    (drainingRun s events).packet_write_ready = false := by
  induction events generalizing s with
  | nil => exact ⟨rfl, hw⟩
  | cons e es ih =>
    by_cases hd : s.handler = Handler.state_connection_draining
    · have hstep := draining_step_no_outbound s e
      have hw' : (state_connection_draining s e).packet_write_ready = false := by
        cases hpw : (state_connection_draining s e).packet_write_ready with
        | false => rfl
        | true => exact absurd (hstep.2 hpw) (by rw [hw]; simp)
      have hrun : drainingRun s (e :: es) =
          if s.handler = Handler.state_connection_draining then
            drainingRun (state_connection_draining s e) es
          else s := rfl
      rw [hrun, if_pos hd]
      obtain ⟨h1, h2⟩ := ih (state_connection_draining s e) hw'
      exact ⟨h1.trans hstep.1, h2⟩
    · have hrun : drainingRun s (e :: es) =
          if s.handler = Handler.state_connection_draining then
            drainingRun (state_connection_draining s e) es
          else s := rfl
      rw [hrun, if_neg hd]
      exact ⟨rfl, hw⟩

/-- C2 witness: a draining connection fed a successful packet, a write-ready
event and the closing timeout sends nothing and never re-arms the write
event. -/
theorem C2_witness :
    (drainingRun
      { handler := Handler.state_connection_draining,
        recv_queue := [cItem],
        local_flow_controller := { current_offset := 0, current_limit := 10 },
        flow_control_buffer_size := 0,
        ack_updates := [],
        packet_write_ready := false,
        closing_timeout_scheduled := true,
        path_validation_timeout_scheduled := false,
        closed_event_scheduled := false,
        path_validated := false,
        sent_packets := 0 }
      [QEvent.PACKET_READ_READY, QEvent.PACKET_WRITE_READY,
       QEvent.CLOSING_TIMEOUT]).sent_packets = 0 ∧
    (drainingRun
      { handler := Handler.state_connection_draining,
        recv_queue := [cItem],
        local_flow_controller := { current_offset := 0, current_limit := 10 },
        flow_control_buffer_size := 0,
        ack_updates := [],
        packet_write_ready := false,
        closing_timeout_scheduled := true,
        path_validation_timeout_scheduled := false,
        closed_event_scheduled := false,
        path_validated := false,
        sent_packets := 0 }
      [QEvent.PACKET_READ_READY, QEvent.PACKET_WRITE_READY,
       QEvent.CLOSING_TIMEOUT]).packet_write_ready = false := by
  exact C2_draining_no_outbound _ _ rfl

/-- The closing receive loop preserves the backoff invariant: the window is
2^sends, at most STATE_CLOSING_MAX_SEND_PKT_NUM sends were scheduled, and
below the window cap the count stays below the window. -/
theorem closing_receive_inv (queue : List DeqItem) (s : ClosingState)
    (h1 : s.recv_packet_window = 2 ^ s.sends_scheduled)
    (h2 : s.sends_scheduled ≤ STATE_CLOSING_MAX_SEND_PKT_NUM)
    (h3 : s.recv_packet_window < STATE_CLOSING_MAX_RECV_PKT_WIND →
      s.recv_packet_count < s.recv_packet_window) :
    ((_state_closing_receive_packet queue s).1.recv_packet_window =
      2 ^ (_state_closing_receive_packet queue s).1.sends_scheduled) ∧
    ((_state_closing_receive_packet queue s).1.sends_scheduled ≤
      STATE_CLOSING_MAX_SEND_PKT_NUM) ∧
    ((_state_closing_receive_packet queue s).1.recv_packet_window <
      STATE_CLOSING_MAX_RECV_PKT_WIND →
      (_state_closing_receive_packet queue s).1.recv_packet_count <
        (_state_closing_receive_packet queue s).1.recv_packet_window) := by
  induction queue generalizing s with
  | nil => exact ⟨h1, h2, h3⟩
  | cons item rest ih =>
    have hwind : STATE_CLOSING_MAX_RECV_PKT_WIND = 2 ^ 8 := by decide
    have hnum : STATE_CLOSING_MAX_SEND_PKT_NUM = 8 := by decide
    simp only [_state_closing_receive_packet]
    split_ifs with hA hB hB
    · -- recv_and_ack applied, send scheduled
      have hB1 : s.recv_packet_window < STATE_CLOSING_MAX_RECV_PKT_WIND :=
        hB.1
      refine ⟨?_, ?_, ?_⟩
      · show s.recv_packet_window <<< 1 = 2 ^ (s.sends_scheduled + 1)
        rw [Nat.shiftLeft_eq, pow_one, h1]
        ring
      · show s.sends_scheduled + 1 ≤ STATE_CLOSING_MAX_SEND_PKT_NUM
        rw [hnum]
        rcases Nat.lt_or_ge s.sends_scheduled 8 with hlt | hge
        · omega
        · exfalso
          have hle : (2 : Nat) ^ 8 ≤ 2 ^ s.sends_scheduled :=
            Nat.pow_le_pow_right (by norm_num) hge
          rw [h1, hwind] at hB1
          omega
      · intro _
        show 0 < s.recv_packet_window <<< 1
        rw [Nat.shiftLeft_eq, pow_one, h1]
        have hp : (0 : Nat) < 2 ^ s.sends_scheduled := pow_pos (by norm_num) _
        omega
    · -- recv_and_ack applied, no send: recurse
      have hB' : ¬(s.recv_packet_window < STATE_CLOSING_MAX_RECV_PKT_WIND ∧
          s.recv_packet_window ≤ s.recv_packet_count + 1) := hB
      refine ih _ h1 h2 ?_
      intro hw
      have hw' : s.recv_packet_window < STATE_CLOSING_MAX_RECV_PKT_WIND := hw
      show s.recv_packet_count + 1 < s.recv_packet_window
      rcases Decidable.not_and_iff_or_not.mp hB' with hc | hc
      · exact absurd hw' hc
      · omega
    · -- packet skipped, send scheduled
      have hB1 : s.recv_packet_window < STATE_CLOSING_MAX_RECV_PKT_WIND :=
        hB.1
      refine ⟨?_, ?_, ?_⟩
      · show s.recv_packet_window <<< 1 = 2 ^ (s.sends_scheduled + 1)
        rw [Nat.shiftLeft_eq, pow_one, h1]
        ring
      · show s.sends_scheduled + 1 ≤ STATE_CLOSING_MAX_SEND_PKT_NUM
        rw [hnum]
        rcases Nat.lt_or_ge s.sends_scheduled 8 with hlt | hge
        · omega
        · exfalso
          have hle : (2 : Nat) ^ 8 ≤ 2 ^ s.sends_scheduled :=
            Nat.pow_le_pow_right (by norm_num) hge
          rw [h1, hwind] at hB1
          omega
      · intro _
        show 0 < s.recv_packet_window <<< 1
        rw [Nat.shiftLeft_eq, pow_one, h1]
        have hp : (0 : Nat) < 2 ^ s.sends_scheduled := pow_pos (by norm_num) _
        omega
    · -- packet skipped, no send: recurse
      have hB' : ¬(s.recv_packet_window < STATE_CLOSING_MAX_RECV_PKT_WIND ∧
          s.recv_packet_window ≤ s.recv_packet_count + 1) := hB
      refine ih _ h1 h2 ?_
      intro hw
      have hw' : s.recv_packet_window < STATE_CLOSING_MAX_RECV_PKT_WIND := hw
      show s.recv_packet_count + 1 < s.recv_packet_window
      rcases Decidable.not_and_iff_or_not.mp hB' with hc | hc
      · exact absurd hw' hc
      · omega

/-- The invariant holds across the whole closing period. -/
theorem closing_period_inv (arrivals : List (List DeqItem))
    (p : ClosingState × List DeqItem)
    (h1 : p.1.recv_packet_window = 2 ^ p.1.sends_scheduled)
    (h2 : p.1.sends_scheduled ≤ STATE_CLOSING_MAX_SEND_PKT_NUM)
    (h3 : p.1.recv_packet_window < STATE_CLOSING_MAX_RECV_PKT_WIND →
      p.1.recv_packet_count < p.1.recv_packet_window) :
    ((closingPeriod arrivals p).1.recv_packet_window =
      2 ^ (closingPeriod arrivals p).1.sends_scheduled) ∧
    ((closingPeriod arrivals p).1.sends_scheduled ≤
      STATE_CLOSING_MAX_SEND_PKT_NUM) ∧
    ((closingPeriod arrivals p).1.recv_packet_window <
      STATE_CLOSING_MAX_RECV_PKT_WIND →
      (closingPeriod arrivals p).1.recv_packet_count <
        (closingPeriod arrivals p).1.recv_packet_window) := by
  induction arrivals generalizing p with
  | nil => exact ⟨h1, h2, h3⟩
  | cons q rest ih =>
    obtain ⟨s, pending⟩ := p
    have hstep := closing_receive_inv (pending ++ q) s h1 h2 h3
    have hper : closingPeriod (q :: rest) (s, pending) =
        closingPeriod rest (_state_closing_receive_packet (pending ++ q) s) :=
      rfl
    rw [hper]
    exact ih _ hstep.1 hstep.2.1 hstep.2.2

/-- Per-packet behaviour of the closing receive path at an invariant state:
a send is scheduled iff the count reaches the window below the cap, and a
send resets the count and doubles the window. -/
theorem closing_single_step (s : ClosingState) (item : DeqItem)
    (h3 : s.recv_packet_window < STATE_CLOSING_MAX_RECV_PKT_WIND →
      s.recv_packet_count < s.recv_packet_window) :
    ((_state_closing_receive_packet [item] s).1.sends_scheduled =
        s.sends_scheduled + 1 ↔
      (s.recv_packet_window < STATE_CLOSING_MAX_RECV_PKT_WIND ∧
       s.recv_packet_count + 1 = s.recv_packet_window)) ∧
    ((s.recv_packet_window < STATE_CLOSING_MAX_RECV_PKT_WIND ∧
      s.recv_packet_count + 1 = s.recv_packet_window) →
      (_state_closing_receive_packet [item] s).1.recv_packet_count = 0 ∧
      (_state_closing_receive_packet [item] s).1.recv_packet_window =
        2 * s.recv_packet_window) := by
  simp only [_state_closing_receive_packet]
  split_ifs with hA hB hB
  · have hBs : s.recv_packet_window < STATE_CLOSING_MAX_RECV_PKT_WIND ∧
        s.recv_packet_window ≤ s.recv_packet_count + 1 := hB
    have hcnt := h3 hBs.1
    constructor
    · constructor
      · intro _
        exact ⟨hBs.1, by omega⟩
      · intro _
        rfl
    · intro _
      refine ⟨rfl, ?_⟩
      show s.recv_packet_window <<< 1 = 2 * s.recv_packet_window
      rw [Nat.shiftLeft_eq, pow_one]
      omega
  · have hBs : ¬(s.recv_packet_window < STATE_CLOSING_MAX_RECV_PKT_WIND ∧
        s.recv_packet_window ≤ s.recv_packet_count + 1) := hB
    constructor
    · constructor
      · intro hEq
        have : s.sends_scheduled = s.sends_scheduled + 1 := hEq
        omega
      · intro hR
        exact absurd ⟨hR.1, by omega⟩ hBs
    · intro hR
      exact absurd ⟨hR.1, by omega⟩ hBs
  · have hBs : s.recv_packet_window < STATE_CLOSING_MAX_RECV_PKT_WIND ∧
        s.recv_packet_window ≤ s.recv_packet_count + 1 := hB
    have hcnt := h3 hBs.1
    constructor
    · constructor
      · intro _
        exact ⟨hBs.1, by omega⟩
      · intro _
        rfl
    · intro _
      refine ⟨rfl, ?_⟩
      show s.recv_packet_window <<< 1 = 2 * s.recv_packet_window
      rw [Nat.shiftLeft_eq, pow_one]
      omega
  · have hBs : ¬(s.recv_packet_window < STATE_CLOSING_MAX_RECV_PKT_WIND ∧
        s.recv_packet_window ≤ s.recv_packet_count + 1) := hB
    constructor
    · constructor
      · intro hEq
        have : s.sends_scheduled = s.sends_scheduled + 1 := hEq
        omega
      · intro hR
        exact absurd ⟨hR.1, by omega⟩ hBs
    · intro hR
      exact absurd ⟨hR.1, by omega⟩ hBs

/-- C3: starting from the closing state's initial counters, over the whole
closing period at most STATE_CLOSING_MAX_SEND_PKT_NUM = 8 CLOSE-packet
transmissions are scheduled by received packets, the receive window never
exceeds STATE_CLOSING_MAX_RECV_PKT_WIND = 2^8, a send is scheduled exactly
when the count of packets received in the current window reaches the window
size (below the cap), and each send resets the count to zero and doubles the
window. -/
theorem C3_closing_backoff (arrivals : List (List DeqItem))
    (fc : QUICFlowController) (buf : Nat) (item : DeqItem) :
    let s := (closingPeriod arrivals (initialClosingState fc buf, [])).1
    (s.sends_scheduled ≤ STATE_CLOSING_MAX_SEND_PKT_NUM ∧
     s.recv_packet_window ≤ STATE_CLOSING_MAX_RECV_PKT_WIND) ∧
    ((_state_closing_receive_packet [item] s).1.sends_scheduled =
        s.sends_scheduled + 1 ↔
      (s.recv_packet_window < STATE_CLOSING_MAX_RECV_PKT_WIND ∧
       s.recv_packet_count + 1 = s.recv_packet_window)) ∧
    ((s.recv_packet_window < STATE_CLOSING_MAX_RECV_PKT_WIND ∧
      s.recv_packet_count + 1 = s.recv_packet_window) →
      (_state_closing_receive_packet [item] s).1.recv_packet_count = 0 ∧
      (_state_closing_receive_packet [item] s).1.recv_packet_window =
        2 * s.recv_packet_window) := by
  intro s
  have hinv := closing_period_inv arrivals (initialClosingState fc buf, [])
    rfl (Nat.zero_le _) (fun _ => Nat.one_pos)
  have hstep := closing_single_step s item hinv.2.2
  refine ⟨⟨hinv.2.1, ?_⟩, hstep.1, hstep.2⟩
  have hwind : STATE_CLOSING_MAX_RECV_PKT_WIND = 2 ^ 8 := by decide
  have hnum : STATE_CLOSING_MAX_SEND_PKT_NUM = 8 := by decide
  rw [hinv.1, hwind]
  exact Nat.pow_le_pow_right (by norm_num) (hnum ▸ hinv.2.1)

/-- C3 witness: from the initial closing state the very first received packet
fills the window of one, schedules the first re-emission and doubles the
window to two. -/
theorem C3_witness :
    (_state_closing_receive_packet [cItem]
      (closingPeriod [] (initialClosingState
        { current_offset := 0, current_limit := 0 } 0, [])).1).1.recv_packet_window
      = 2 ∧
    (_state_closing_receive_packet [cItem]
      (closingPeriod [] (initialClosingState
        { current_offset := 0, current_limit := 0 } 0, [])).1).1.recv_packet_count
      = 0 := by
  have h := C3_closing_backoff [] { current_offset := 0, current_limit := 0 }
    0 cItem
  obtain ⟨hc, hw⟩ := h.2.2 (by decide)
  have h5 : (closingPeriod [] (initialClosingState
      { current_offset := 0, current_limit := 0 } 0, [])).1.recv_packet_window
      = 1 := rfl
  exact ⟨by omega, hc⟩

/-- C6: for every encryption level and every producer state,
_packetize_frames returns the null packet whenever max_packet_size is at
most 62 = MAX_PACKET_OVERHEAD, producing no frames and no output. -/
theorem C6_packetize_small_budget (o : PacketizeOracles)
    (ctx : NetVConnectionContext) (pmtu : Nat) (is_ipv6 : Bool)
    (level : QUICEncryptionLevel) (max_packet_size sfs : Nat)
    (h : max_packet_size ≤ 62) :
    (_packetize_frames o ctx pmtu is_ipv6 level max_packet_size sfs).packet =
      none ∧
    (_packetize_frames o ctx pmtu is_ipv6 level max_packet_size sfs).frames =
      [] := by
  unfold _packetize_frames
  rw [if_pos (show max_packet_size ≤ MAX_PACKET_OVERHEAD from h)]
  exact ⟨rfl, rfl⟩

/-- C6 witness: a 62-byte budget yields nothing even at the 1-RTT level. -/
theorem C6_witness :
    (_packetize_frames trivialOracles
      NetVConnectionContext.NET_VCONNECTION_IN 1500 false
      QUICEncryptionLevel.ONE_RTT 62 0).packet = none := by
  exact (C6_packetize_small_budget trivialOracles
    NetVConnectionContext.NET_VCONNECTION_IN 1500 false
    QUICEncryptionLevel.ONE_RTT 62 0 (by decide)).1

/-- The per-level loop never removes packets from the accumulated list. -/
theorem sendLevels_length_mono (P : SendParams) (iter w : Nat)
    (levels : List QUICEncryptionLevel) (st : LevelLoopState) :
    st.packets.length ≤ (sendLevels P iter w levels st).packets.length := by
  induction levels generalizing st with
  | nil => exact Nat.le_refl _
  | cons level rest ih =>
    simp only [sendLevels]
    by_cases hA : P.ctx = NetVConnectionContext.NET_VCONNECTION_IN ∧
        P.src_addr_verified = false ∧
        MAX_PACKETS_WITHOUT_SRC_ADDR_VARIDATION ≤ st.handshake_packets_sent
    · rw [if_pos hA]
    · rw [if_neg hA]
      cases hp : (_packetize_frames (P.producers iter level) P.ctx P.pmtu
          P.is_ipv6 level (w - st.written) st.stream_frames_sent).packet with
      | none =>
        dsimp only
        exact ih { st with stream_frames_sent := (_packetize_frames (P.producers iter level) P.ctx P.pmtu P.is_ipv6 level (w - st.written) st.stream_frames_sent).stream_frames_sent }
      | some pkt =>
        dsimp only
        have h := ih { packets := st.packets ++ [pkt], handshake_packets_sent := if P.ctx = NetVConnectionContext.NET_VCONNECTION_IN ∧ (QUICTypeUtil.packet_type level = QUICPacketType.INITIAL ∨ QUICTypeUtil.packet_type level = QUICPacketType.HANDSHAKE) then st.handshake_packets_sent + 1 else st.handshake_packets_sent, stream_frames_sent := (_packetize_frames (P.producers iter level) P.ctx P.pmtu P.is_ipv6 level (w - st.written) st.stream_frames_sent).stream_frames_sent, written := st.written + pkt.len, error := st.error }
        exact le_trans (by simp) h

/-- The per-level loop adds at most one packet per level. -/
theorem sendLevels_length_le (P : SendParams) (iter w : Nat)
    (levels : List QUICEncryptionLevel) (st : LevelLoopState) :
    (sendLevels P iter w levels st).packets.length ≤
      st.packets.length + levels.length := by
  induction levels generalizing st with
  | nil => simp [sendLevels]
  | cons level rest ih =>
    simp only [sendLevels]
    by_cases hA : P.ctx = NetVConnectionContext.NET_VCONNECTION_IN ∧
        P.src_addr_verified = false ∧
        MAX_PACKETS_WITHOUT_SRC_ADDR_VARIDATION ≤ st.handshake_packets_sent
    · rw [if_pos hA]
      simp
    · rw [if_neg hA]
      cases hp : (_packetize_frames (P.producers iter level) P.ctx P.pmtu
          P.is_ipv6 level (w - st.written) st.stream_frames_sent).packet with
      | none =>
        dsimp only
        have h := ih { st with stream_frames_sent := (_packetize_frames (P.producers iter level) P.ctx P.pmtu P.is_ipv6 level (w - st.written) st.stream_frames_sent).stream_frames_sent }
        dsimp only at h
        simp only [List.length_cons]
        omega
      | some pkt =>
        dsimp only
        have h := ih { packets := st.packets ++ [pkt], handshake_packets_sent := if P.ctx = NetVConnectionContext.NET_VCONNECTION_IN ∧ (QUICTypeUtil.packet_type level = QUICPacketType.INITIAL ∨ QUICTypeUtil.packet_type level = QUICPacketType.HANDSHAKE) then st.handshake_packets_sent + 1 else st.handshake_packets_sent, stream_frames_sent := (_packetize_frames (P.producers iter level) P.ctx P.pmtu P.is_ipv6 level (w - st.written) st.stream_frames_sent).stream_frames_sent, written := st.written + pkt.len, error := st.error }
        dsimp only at h
        simp only [List.length_append, List.length_cons,
          List.length_nil] at h
        simp only [List.length_cons]
        omega

/-- A level pass that wrote bytes has built at least one packet. -/
theorem sendLevels_written_packets (P : SendParams) (iter w : Nat)
    (levels : List QUICEncryptionLevel) (st : LevelLoopState)
    (hw : (sendLevels P iter w levels st).written ≠ st.written) :
    st.packets.length < (sendLevels P iter w levels st).packets.length := by
  induction levels generalizing st with
  | nil => exact absurd rfl hw
  | cons level rest ih =>
    simp only [sendLevels] at hw ⊢
    by_cases hA : P.ctx = NetVConnectionContext.NET_VCONNECTION_IN ∧
        P.src_addr_verified = false ∧
        MAX_PACKETS_WITHOUT_SRC_ADDR_VARIDATION ≤ st.handshake_packets_sent
    · rw [if_pos hA] at hw
      exact absurd rfl hw
    · rw [if_neg hA] at hw ⊢
      cases hp : (_packetize_frames (P.producers iter level) P.ctx P.pmtu
          P.is_ipv6 level (w - st.written) st.stream_frames_sent).packet with
      | none =>
        rw [hp] at hw
        dsimp only at hw ⊢
        exact ih { st with stream_frames_sent := (_packetize_frames (P.producers iter level) P.ctx P.pmtu P.is_ipv6 level (w - st.written) st.stream_frames_sent).stream_frames_sent } hw
      | some pkt =>
        rw [hp] at hw
        dsimp only at hw ⊢
        have h := sendLevels_length_mono P iter w rest { packets := st.packets ++ [pkt], handshake_packets_sent := if P.ctx = NetVConnectionContext.NET_VCONNECTION_IN ∧ (QUICTypeUtil.packet_type level = QUICPacketType.INITIAL ∨ QUICTypeUtil.packet_type level = QUICPacketType.HANDSHAKE) then st.handshake_packets_sent + 1 else st.handshake_packets_sent, stream_frames_sent := (_packetize_frames (P.producers iter level) P.ctx P.pmtu P.is_ipv6 level (w - st.written) st.stream_frames_sent).stream_frames_sent, written := st.written + pkt.len, error := st.error }
        dsimp only at h
        simp only [List.length_append, List.length_cons,
          List.length_nil] at h
        omega

/-- With the per-event packet cap already reached, the loop is inert for any
fuel. -/
theorem sendLoop_exhausted (P : SendParams) (fuel iter : Nat)
    (packets : List BuiltPacket) (dgrams hs sfs : Nat)
    (h : ¬ packets.length < PACKET_PER_EVENT) :
    sendLoop P fuel iter packets dgrams hs sfs =
      { packets_sent := packets, datagrams := dgrams,
        handshake_packets_sent := hs, stream_frames_sent := sfs } := by
  cases fuel with
  | zero => rfl
  | succ f =>
    simp only [sendLoop]
    rw [if_neg h]

/-- The send loop keeps the packet count at or below
PACKET_PER_EVENT + 3. -/
theorem sendLoop_packets_le (P : SendParams) (fuel : Nat) :
    ∀ iter (packets : List BuiltPacket) (dgrams hs sfs : Nat),
      packets.length ≤ PACKET_PER_EVENT + 3 →
      (sendLoop P fuel iter packets dgrams hs sfs).packets_sent.length ≤
        PACKET_PER_EVENT + 3 := by
  induction fuel with
  | zero =>
    intro iter packets dgrams hs sfs h
    exact h
  | succ fuel ih =>
    intro iter packets dgrams hs sfs h
    simp only [sendLoop]
    by_cases h1 : packets.length < PACKET_PER_EVENT
    · rw [if_pos h1]
      by_cases h2 : P.open_window iter = 0
      · rw [if_pos h2]
        exact h
      · rw [if_neg h2]
        have hr := sendLevels_length_le P iter (min (P.open_window iter)
          P.pmtu) QUIC_ENCRYPTION_LEVELS (LevelLoopState.mk packets hs sfs 0 0)
        dsimp only at hr
        have hlen : (sendLevels P iter (min (P.open_window iter) P.pmtu)
            QUIC_ENCRYPTION_LEVELS
            (LevelLoopState.mk packets hs sfs 0 0)).packets.length ≤
            PACKET_PER_EVENT + 3 := by
          have h4 : QUIC_ENCRYPTION_LEVELS.length = 4 := rfl
          rw [h4] at hr
          simp only [PACKET_PER_EVENT] at h1 ⊢
          omega
        by_cases h3 : (sendLevels P iter (min (P.open_window iter) P.pmtu)
            QUIC_ENCRYPTION_LEVELS
            (LevelLoopState.mk packets hs sfs 0 0)).written = 0
        · rw [if_pos h3]
          exact hlen
        · rw [if_neg h3]
          by_cases h4 : (sendLevels P iter (min (P.open_window iter) P.pmtu)
              QUIC_ENCRYPTION_LEVELS
              (LevelLoopState.mk packets hs sfs 0 0)).error ≠ 0
          · rw [if_pos h4]
            exact hlen
          · rw [if_neg h4]
            exact ih (iter + 1) _ (dgrams + 1) _ _ hlen
    · rw [if_neg h1]
      exact h

/-- C7 (amended): one PACKET_WRITE_READY event hands at most
PACKET_PER_EVENT + 3 = 35 packets to the loss detectors, for every state of
the congestion controller and frame producers: the per-event cap of 32 is
checked only between datagrams, and the inner loop can add one packet per
encryption level (up to 4) after the check. -/
theorem C7_send_packet_bound (P : SendParams) (hs sfs : Nat) :
    (_state_common_send_packet P hs sfs).packets_sent.length ≤
      PACKET_PER_EVENT + 3 := by
  exact sendLoop_packets_le P (PACKET_PER_EVENT + 1) 0 [] 0 hs sfs (by decide)

/-- C7 counterexample: a run in which the congestion window is never the
limit, the producers yield one Initial packet per datagram for 31 datagrams
and then one packet at each of the four levels, hands 35 > 32 =
PACKET_PER_EVENT packets to the loss detectors in a single event. -/
theorem C7_counterexample :
    PACKET_PER_EVENT <
      (_state_common_send_packet cxParams 0 0).packets_sent.length := by
  decide

/-- The fuel bound of sendLoop is never the binding constraint: any two fuels
at least PACKET_PER_EVENT + 1 − packets.length compute the same result,
because every iteration that continues has strictly grown the packet list. -/
theorem sendLoop_fuel_stable (P : SendParams) (fuel : Nat) :
    ∀ fuel' iter (packets : List BuiltPacket) (dgrams hs sfs : Nat),
      PACKET_PER_EVENT + 1 ≤ fuel + packets.length →
      PACKET_PER_EVENT + 1 ≤ fuel' + packets.length →
      sendLoop P fuel iter packets dgrams hs sfs =
        sendLoop P fuel' iter packets dgrams hs sfs := by
  induction fuel with
  | zero =>
    intro fuel' iter packets dgrams hs sfs hf hf'
    have hlen : ¬ packets.length < PACKET_PER_EVENT := by
      simp only [PACKET_PER_EVENT] at hf ⊢
      omega
    rw [sendLoop_exhausted P 0 iter packets dgrams hs sfs hlen,
        sendLoop_exhausted P fuel' iter packets dgrams hs sfs hlen]
  | succ fuel ih =>
    intro fuel' iter packets dgrams hs sfs hf hf'
    by_cases h1 : packets.length < PACKET_PER_EVENT
    · cases fuel' with
      | zero =>
        exfalso
        simp only [PACKET_PER_EVENT] at h1 hf'
        omega
      | succ fuel' =>
        simp only [sendLoop]
        rw [if_pos h1, if_pos h1]
        by_cases h2 : P.open_window iter = 0
        · rw [if_pos h2, if_pos h2]
        · rw [if_neg h2, if_neg h2]
          by_cases h3 : (sendLevels P iter (min (P.open_window iter) P.pmtu)
              QUIC_ENCRYPTION_LEVELS
              (LevelLoopState.mk packets hs sfs 0 0)).written = 0
          · rw [if_pos h3, if_pos h3]
          · rw [if_neg h3, if_neg h3]
            by_cases h4 : (sendLevels P iter (min (P.open_window iter) P.pmtu)
                QUIC_ENCRYPTION_LEVELS
                (LevelLoopState.mk packets hs sfs 0 0)).error ≠ 0
            · rw [if_pos h4, if_pos h4]
            · rw [if_neg h4, if_neg h4]
              have hgrow : packets.length <
                  (sendLevels P iter (min (P.open_window iter) P.pmtu)
                    QUIC_ENCRYPTION_LEVELS
                    (LevelLoopState.mk packets hs sfs 0 0)).packets.length := by
                have hne := sendLevels_written_packets P iter
                  (min (P.open_window iter) P.pmtu) QUIC_ENCRYPTION_LEVELS
                  (LevelLoopState.mk packets hs sfs 0 0) (by simpa using h3)
                simpa using hne
              exact ih fuel' (iter + 1) _ (dgrams + 1) _ _ (by omega)
                (by omega)
    · rw [sendLoop_exhausted P (fuel + 1) iter packets dgrams hs sfs h1,
          sendLoop_exhausted P fuel' iter packets dgrams hs sfs h1]
